import Mathlib

/-!
Verification of the microwave-converter conversion engine
(`src/script.js` of jtracey93/microwave-converter).

The JavaScript source is shallowly embedded below:
* numbers produced by `parseInt` are modelled as `Int`;
* JavaScript's real-number division together with `Math.round` /
  `Math.floor` is modelled exactly over `ℚ` (for the integer inputs in
  the validated range here, IEEE doubles represent every intermediate
  value with an error far below the distance to the nearest rounding
  boundary, so the exact rational model coincides with the float code);
* strings are modelled as `String` built from explicit character lists,
  and the JavaScript number→string interpolation of nonnegative integers
  is modelled by an explicit decimal-digit function.
-/

/-- JavaScript `Math.round`: rounds to the nearest integer, halves
towards `+∞`. -/
def mathRound (x : ℚ) : ℤ := ⌊x + 1 / 2⌋

/-- JavaScript `Math.floor` on a rational value. -/
def mathFloor (x : ℚ) : ℤ := ⌊x⌋

/-- The object returned by `getFormData` in `src/script.js`:
`{originalWattage, originalMinutes, originalSeconds, targetWattage}`,
each obtained through `parseInt`. -/
structure FormData where
  originalWattage : ℤ
  originalMinutes : ℤ
  originalSeconds : ℤ
  targetWattage : ℤ
deriving DecidableEq

/-- The record returned by `calculateConversion` in `src/script.js`. -/
structure ConversionResult where
  originalTotalSeconds : ℤ
  newTotalSeconds : ℤ
  newMinutes : ℤ
  newSeconds : ℤ
  ratio : ℚ
deriving DecidableEq

/-- `calculateConversion` from `src/script.js` (lines 184–203):
`originalTotalSeconds = minutes*60 + seconds`;
`newTotalSeconds = Math.round((originalTotalSeconds * originalWattage) / targetWattage)`;
`newMinutes = Math.floor(newTotalSeconds / 60)`;
`newSeconds = newTotalSeconds % 60` (JavaScript `%` truncates towards
zero, i.e. `Int.tmod`); `ratio = originalWattage / targetWattage`
(no rounding is applied to `ratio` in the source). -/
def calculateConversion (data : FormData) : ConversionResult :=
  let originalTotalSeconds : ℤ := data.originalMinutes * 60 + data.originalSeconds
  let newTotalSeconds : ℤ :=
    mathRound (((originalTotalSeconds : ℚ) * (data.originalWattage : ℚ)) /
      (data.targetWattage : ℚ))
  let newMinutes : ℤ := mathFloor ((newTotalSeconds : ℚ) / 60)
  let newSeconds : ℤ := Int.tmod newTotalSeconds 60
  { originalTotalSeconds := originalTotalSeconds
    newTotalSeconds := newTotalSeconds
    newMinutes := newMinutes
    newSeconds := newSeconds
    ratio := (data.originalWattage : ℚ) / (data.targetWattage : ℚ) }

/-- The four `input[type="number"]` fields of the form
(`index.html`); the wattage fields carry the `required` attribute,
the time fields do not. -/
inductive InputKind where
  | originalWattage
  | originalMinutes
  | originalSeconds
  | targetWattage
deriving DecidableEq

/-- Whether the field carries the `required` attribute in `index.html`. -/
def InputKind.isRequired : InputKind → Bool
  | .originalWattage => true
  | .targetWattage => true
  | _ => false

/-- Whether the field id contains `"Wattage"`
(`input.id.includes('Wattage')` in `validateInput`). -/
def InputKind.isWattage : InputKind → Bool
  | .originalWattage => true
  | .targetWattage => true
  | _ => false

/-- The validation verdict of `validateInput` in `src/script.js`
(lines 62–96) on a present numeric value: the error message shown for
the first failing check, or `none` when the field validates.  The
checks run in source order: the `required` check (`value <= 0`), then
the wattage range checks, then the seconds and minutes upper bounds.
Note that no check rejects a negative value of a non-required field. -/
def inputVerdict (k : InputKind) (v : ℤ) : Option String :=
  if k.isRequired = true ∧ v ≤ 0 then some "This field is required"
  else if k.isWattage = true ∧ v < 100 then some "Wattage must be at least 100 watts"
  else if k.isWattage = true ∧ v > 2000 then some "Wattage must be 2000 watts or less"
  else if k = .originalSeconds ∧ v > 59 then some "Seconds must be between 0-59"
  else if k = .originalMinutes ∧ v > 60 then some "Minutes should be reasonable (≤60)"
  else none

/-- `validateForm` from `src/script.js` (lines 144–165): every number
input must pass `validateInput`, and additionally the form is invalid
when both time fields are zero. -/
def validateForm (d : FormData) : Bool :=
  (inputVerdict .originalWattage d.originalWattage).isNone
    && (inputVerdict .originalMinutes d.originalMinutes).isNone
    && (inputVerdict .originalSeconds d.originalSeconds).isNone
    && (inputVerdict .targetWattage d.targetWattage).isNone
    && !(d.originalMinutes == 0 && d.originalSeconds == 0)

/-- The presentation state of a field group that `validateInput`
manipulates through `showError` / `showSuccess` / `clearErrors`:
the `error` and `success` CSS classes and the `.error-message`
element's text (when present). -/
structure FieldGroupState where
  errorClass : Bool
  successClass : Bool
  errorMessage : Option String
deriving DecidableEq

/-- The state of one number input: its value and its field group. -/
structure ElementState where
  value : ℤ
  group : FieldGroupState
deriving DecidableEq

/-- `clearErrors` (lines 122–130): removes the `error` and `success`
classes and the error-message element. -/
def clearErrorsS (_ : FieldGroupState) : FieldGroupState :=
  { errorClass := false, successClass := false, errorMessage := none }

/-- `showError` (lines 98–109): adds the `error` class, removes
`success`, and sets the message text. -/
def showErrorS (message : String) (g : FieldGroupState) : FieldGroupState :=
  { g with errorClass := true, successClass := false, errorMessage := some message }

/-- `showSuccess` (lines 111–120): adds the `success` class, removes
`error`, and removes the error-message element. -/
def showSuccessS (g : FieldGroupState) : FieldGroupState :=
  { g with errorClass := false, successClass := true, errorMessage := none }

/-- `validateInput` from `src/script.js` (lines 62–96) as a state
transformer on the input element: it first clears the field group,
then either shows the first error and returns `false`, or shows
success and returns `true`.  It never writes `input.value`. -/
def validateInputE (k : InputKind) (e : ElementState) : Bool × ElementState :=
  let g0 := clearErrorsS e.group
  match inputVerdict k e.value with
  | some message => (false, { value := e.value, group := showErrorS message g0 })
  | none => (true, { value := e.value, group := showSuccessS g0 })

/-- Decimal digits of a natural number, most significant first, with
structural fuel (`fuel > n` suffices for full expansion; the digit-set
lemmas below hold for every fuel). -/
def natDigitsAux : ℕ → ℕ → List Char
  | 0, _ => []
  | fuel + 1, n =>
    if n < 10 then [Nat.digitChar n]
    else natDigitsAux fuel (n / 10) ++ [Nat.digitChar (n % 10)]

/-- The JavaScript decimal rendering of an integer, as used by template
literals such as `` `${result.newMinutes}m ` `` in `src/script.js`. -/
def intDigits (i : ℤ) : List Char :=
  if i < 0 then '-' :: natDigitsAux (i.natAbs + 1) i.natAbs
  else natDigitsAux (i.toNat + 1) i.toNat

/-- JavaScript `String.prototype.trim`: drop whitespace from both ends. -/
def jsTrim (l : List Char) : List Char :=
  (((l.dropWhile Char.isWhitespace).reverse).dropWhile Char.isWhitespace).reverse

/-- `formatTime` from `src/script.js` (lines 229–238): used for the
*original* time in the explanation.  Adds `"<m>m "` when `minutes > 0`,
adds `"<s>s"` when `seconds > 0 || minutes === 0`, then trims. -/
def formatTime (minutes seconds : ℤ) : String :=
  ⟨jsTrim ((if minutes > 0 then intDigits minutes ++ ['m', ' '] else []) ++
    (if seconds > 0 ∨ minutes = 0 then intDigits seconds ++ ['s'] else []))⟩

/-- The converted-time string built inline in `displayResult`
(lines 205–213): `"<m>m "` when `newMinutes > 0`, then always
`"<s>s"`; no trim. -/
def convertedTimeString (r : ConversionResult) : String :=
  ⟨(if r.newMinutes > 0 then intDigits r.newMinutes ++ ['m', ' '] else []) ++
    (intDigits r.newSeconds ++ ['s'])⟩

/-- The explanation built in `displayResult` (lines 214–219):
`` `Cook for ${timeString} instead of ${originalTimeStr}` `` where
`originalTimeStr = formatTime(originalMinutes, originalSeconds)`. -/
def explanationString (r : ConversionResult) (d : FormData) : String :=
  "Cook for " ++ convertedTimeString r ++ " instead of " ++
    formatTime d.originalMinutes d.originalSeconds

/-- The advisory record returned by
`Utils.getPowerLevelRecommendation`. -/
structure PowerRecommendation where
  powerLevel : String
  reason : String
deriving DecidableEq

/-- The reason string of the `ratio > 1.5` branch. -/
def morePowerfulReason : String :=
  "Your microwave is much more powerful. Consider using a lower power level."

/-- The reason string of the `ratio < 0.7` branch. -/
def lessPowerfulReason : String :=
  "Your microwave is less powerful. Use full power and check frequently."

/-- The reason string of the default branch. -/
def similarReason : String :=
  "Your microwave power is similar to the recipe. Use normal power."

/-- `Utils.getPowerLevelRecommendation` from `src/script.js`
(lines 392–411).  The float comparisons of the source agree with the
exact rational comparisons used here: `1.5` is an exact double, and for
integer wattages in range the computed ratio is either exactly `7/10`
(in which case both the double comparison and the rational comparison
with `0.7` are false) or at distance at least `1/20000` from it, far
beyond the double rounding error. -/
def getPowerLevelRecommendation (originalWattage targetWattage : ℤ) : PowerRecommendation :=
  let ratio : ℚ := (originalWattage : ℚ) / (targetWattage : ℚ)
  if ratio > 3 / 2 then
    { powerLevel := "70-80%", reason := morePowerfulReason }
  else if ratio < 7 / 10 then
    { powerLevel := "100%", reason := lessPowerfulReason }
  else
    { powerLevel := "100%", reason := similarReason }

/-- Spec-side (§3 of the spec): a `ConversionRequest` in the documented
domain — wattages in `[100,2000]`, minutes in `[0,60]`, seconds in
`[0,59]`, not both time fields zero. -/
def ValidRequest (d : FormData) : Prop :=
  100 ≤ d.originalWattage ∧ d.originalWattage ≤ 2000 ∧
  100 ≤ d.targetWattage ∧ d.targetWattage ≤ 2000 ∧
  0 ≤ d.originalMinutes ∧ d.originalMinutes ≤ 60 ∧
  0 ≤ d.originalSeconds ∧ d.originalSeconds ≤ 59 ∧
  ¬(d.originalMinutes = 0 ∧ d.originalSeconds = 0)

instance (d : FormData) : Decidable (ValidRequest d) := by
  unfold ValidRequest; infer_instance

/-- Spec-side: rounding to the nearest integer with halves away from
zero, the rule named by the specification. -/
def roundHalfAwayFromZero (x : ℚ) : ℤ :=
  if 0 ≤ x then ⌊x + 1 / 2⌋ else ⌈x - 1 / 2⌉

/-- Spec-side error taxonomy (§7 of the spec). -/
inductive ValidationErrorKind where
  | missingField
  | outOfRange
  | invalidTime
deriving DecidableEq

/-- Spec-side classification of the concrete error messages of
`src/script.js` into the spec's taxonomy. -/
def errorKind (message : String) : ValidationErrorKind :=
  if message = "This field is required" then .missingField
  else if message = "Seconds must be between 0-59" then .invalidTime
  else if message = "Minutes should be reasonable (≤60)" then .invalidTime
  else if message = "Please specify at least some cooking time" then .invalidTime
  else .outOfRange

/-! ### Arithmetic support lemmas -/

lemma floor_intCast_div_intCast (a b : ℤ) (hb : 0 ≤ b) :
    ⌊(a : ℚ) / (b : ℚ)⌋ = a / b := by
  have h1 : ((b.toNat : ℤ)) = b := Int.toNat_of_nonneg hb
  have h2 : ((b.toNat : ℕ) : ℚ) = (b : ℚ) := by
    exact_mod_cast congrArg (fun z : ℤ => (z : ℚ)) h1
  rw [← h2, Rat.floor_intCast_div_natCast a b.toNat, h1]

lemma mathRound_mono {x y : ℚ} (h : x ≤ y) : mathRound x ≤ mathRound y :=
  Int.floor_le_floor (by linarith)

lemma mathRound_nonneg {x : ℚ} (hx : 0 ≤ x) : 0 ≤ mathRound x :=
  Int.floor_nonneg.mpr (by linarith)

lemma mathRound_intCast (n : ℤ) : mathRound (n : ℚ) = n := by
  unfold mathRound
  rw [show ((n : ℚ) + 1 / 2) = (1 / 2 : ℚ) + (n : ℤ) by ring,
    Int.floor_add_int]
  norm_num

lemma ValidRequest.targetWattage_pos {d : FormData} (h : ValidRequest d) :
    (0 : ℚ) < (d.targetWattage : ℚ) := by
  have := h.2.2.1
  exact_mod_cast (by omega : (0 : ℤ) < d.targetWattage)

lemma ValidRequest.numerator_nonneg {d : FormData} (h : ValidRequest d) :
    (0 : ℚ) ≤ ((d.originalMinutes * 60 + d.originalSeconds : ℤ) : ℚ) *
      (d.originalWattage : ℚ) := by
  obtain ⟨h1, h2, h3, h4, h5, h6, h7, h8, h9⟩ := h
  have ha : (0 : ℤ) ≤ d.originalMinutes * 60 + d.originalSeconds := by omega
  have hb : (0 : ℤ) ≤ d.originalWattage := by omega
  have ha' : (0 : ℚ) ≤ ((d.originalMinutes * 60 + d.originalSeconds : ℤ) : ℚ) := by
    exact_mod_cast ha
  have hb' : (0 : ℚ) ≤ (d.originalWattage : ℚ) := by exact_mod_cast hb
  exact mul_nonneg ha' hb'

lemma ValidRequest.argument_nonneg {d : FormData} (h : ValidRequest d) :
    (0 : ℚ) ≤ ((d.originalMinutes * 60 + d.originalSeconds : ℤ) : ℚ) *
      (d.originalWattage : ℚ) / (d.targetWattage : ℚ) :=
  div_nonneg h.numerator_nonneg h.targetWattage_pos.le

/-- The `newTotalSeconds` computed by the source agrees with the spec's
round-half-away-from-zero of the exact rational quotient. -/
lemma newTotalSeconds_eq_roundAway (d : FormData) (h : ValidRequest d) :
    (calculateConversion d).newTotalSeconds =
      roundHalfAwayFromZero
        (((d.originalMinutes * 60 + d.originalSeconds : ℤ) : ℚ) *
          (d.originalWattage : ℚ) / (d.targetWattage : ℚ)) := by
  rw [roundHalfAwayFromZero, if_pos h.argument_nonneg]
  rfl

lemma newTotalSeconds_nonneg (d : FormData) (h : ValidRequest d) :
    0 ≤ (calculateConversion d).newTotalSeconds :=
  mathRound_nonneg h.argument_nonneg

/-! ### Claims about the conversion arithmetic -/

/-- C1: for every validated request, `calculateConversion` computes
`originalTotalSeconds = originalMinutes*60 + originalSeconds`, then
`newTotalSeconds = round(originalTotalSeconds * originalWattage / targetWattage)`
with halves rounded away from zero (the argument is nonnegative, so the
source's round-half-up `Math.round` coincides with it), then
`newMinutes = floor(newTotalSeconds / 60)` (Euclidean division by the
positive constant 60 is floor division) and
`newSeconds = newTotalSeconds mod 60`. -/
theorem convert_follows_spec_formula (d : FormData) (h : ValidRequest d) :
    (calculateConversion d).originalTotalSeconds =
      d.originalMinutes * 60 + d.originalSeconds ∧
    (calculateConversion d).newTotalSeconds =
      roundHalfAwayFromZero
        (((d.originalMinutes * 60 + d.originalSeconds : ℤ) : ℚ) *
          (d.originalWattage : ℚ) / (d.targetWattage : ℚ)) ∧
    (calculateConversion d).newMinutes =
      (calculateConversion d).newTotalSeconds / 60 ∧
    (calculateConversion d).newSeconds =
      (calculateConversion d).newTotalSeconds % 60 := by
  refine ⟨rfl, newTotalSeconds_eq_roundAway d h, ?_, ?_⟩
  · show mathFloor (((calculateConversion d).newTotalSeconds : ℚ) / 60) = _
    unfold mathFloor
    rw [show ((60 : ℚ)) = ((60 : ℤ) : ℚ) by norm_num]
    exact floor_intCast_div_intCast _ 60 (by norm_num)
  · exact Int.tmod_eq_emod (newTotalSeconds_nonneg d h) (by norm_num)

/-- Witness for C1: the documented example request (1000W recipe, 700W
target, 2m 0s). -/
theorem convert_follows_spec_formula_witness :
    (calculateConversion ⟨1000, 2, 0, 700⟩).originalTotalSeconds =
      2 * 60 + 0 ∧
    (calculateConversion ⟨1000, 2, 0, 700⟩).newTotalSeconds =
      roundHalfAwayFromZero
        (((2 * 60 + 0 : ℤ) : ℚ) * ((1000 : ℤ) : ℚ) / ((700 : ℤ) : ℚ)) ∧
    (calculateConversion ⟨1000, 2, 0, 700⟩).newMinutes =
      (calculateConversion ⟨1000, 2, 0, 700⟩).newTotalSeconds / 60 ∧
    (calculateConversion ⟨1000, 2, 0, 700⟩).newSeconds =
      (calculateConversion ⟨1000, 2, 0, 700⟩).newTotalSeconds % 60 :=
  convert_follows_spec_formula ⟨1000, 2, 0, 700⟩ (by decide)

/-- C3 (counterexample): strictly increasing the target wattage does
NOT strictly decrease `newTotalSeconds`: with a 1-second duration at
1000W, targets 1000W and 1001W both yield `newTotalSeconds = 1`. -/
theorem newTotalSeconds_not_strictly_decreasing :
    ValidRequest ⟨1000, 0, 1, 1000⟩ ∧ ValidRequest ⟨1000, 0, 1, 1001⟩ ∧
    ((1000 : ℤ) < 1001) ∧
    ¬((calculateConversion ⟨1000, 0, 1, 1001⟩).newTotalSeconds <
        (calculateConversion ⟨1000, 0, 1, 1000⟩).newTotalSeconds) := by
  refine ⟨by decide, by decide, by decide, ?_⟩
  have e1 : (calculateConversion ⟨1000, 0, 1, 1001⟩).newTotalSeconds = 1 := by
    norm_num [calculateConversion, mathRound]
  have e2 : (calculateConversion ⟨1000, 0, 1, 1000⟩).newTotalSeconds = 1 := by
    norm_num [calculateConversion, mathRound]
  omega

/-- C3 (amended): holding the original wattage and duration fixed,
increasing the target wattage within the valid range weakly decreases
`newTotalSeconds` (the decrease is not strict because of rounding). -/
theorem newTotalSeconds_antitone_in_target (d₁ d₂ : FormData)
    (h₁ : ValidRequest d₁) (h₂ : ValidRequest d₂)
    (hw : d₂.originalWattage = d₁.originalWattage)
    (hm : d₂.originalMinutes = d₁.originalMinutes)
    (hs : d₂.originalSeconds = d₁.originalSeconds)
    (ht : d₁.targetWattage ≤ d₂.targetWattage) :
    (calculateConversion d₂).newTotalSeconds ≤
      (calculateConversion d₁).newTotalSeconds := by
  show mathRound _ ≤ mathRound _
  apply mathRound_mono
  rw [hw, hm, hs]
  have hA : (0 : ℚ) ≤ ((d₁.originalMinutes * 60 + d₁.originalSeconds : ℤ) : ℚ) *
      (d₁.originalWattage : ℚ) := h₁.numerator_nonneg
  have ht1 : (0 : ℚ) < (d₁.targetWattage : ℚ) := h₁.targetWattage_pos
  have ht2 : (0 : ℚ) < (d₂.targetWattage : ℚ) := h₂.targetWattage_pos
  have hle : (d₁.targetWattage : ℚ) ≤ (d₂.targetWattage : ℚ) := by exact_mod_cast ht
  rcases eq_or_lt_of_le hA with hA0 | hApos
  · rw [← hA0]
    simp
  · exact (div_le_div_iff_of_pos_left hApos ht2 ht1).mpr hle

/-- Witness for the amended C3: 120 s at 1000W, targets 700W vs 800W. -/
theorem newTotalSeconds_antitone_in_target_witness :
    (calculateConversion ⟨1000, 2, 0, 800⟩).newTotalSeconds ≤
      (calculateConversion ⟨1000, 2, 0, 700⟩).newTotalSeconds :=
  newTotalSeconds_antitone_in_target ⟨1000, 2, 0, 700⟩ ⟨1000, 2, 0, 800⟩
    (by decide) (by decide) rfl rfl rfl (by decide)

/-- C4: converting with equal original and target wattages returns the
original duration exactly (same total seconds, minutes and seconds). -/
theorem convert_same_wattage_identity (d : FormData) (h : ValidRequest d)
    (hw : d.originalWattage = d.targetWattage) :
    (calculateConversion d).newTotalSeconds =
      d.originalMinutes * 60 + d.originalSeconds ∧
    (calculateConversion d).newMinutes = d.originalMinutes ∧
    (calculateConversion d).newSeconds = d.originalSeconds := by
  obtain ⟨h1, h2, h3, h4, h5, h6, h7, h8, h9⟩ := h
  have htw : ((d.targetWattage : ℚ)) ≠ 0 := by
    have hpos : (0 : ℤ) < d.targetWattage := by omega
    exact_mod_cast hpos.ne'
  have hnts : (calculateConversion d).newTotalSeconds =
      d.originalMinutes * 60 + d.originalSeconds := by
    show mathRound (((d.originalMinutes * 60 + d.originalSeconds : ℤ) : ℚ) *
      (d.originalWattage : ℚ) / (d.targetWattage : ℚ)) = _
    rw [hw, mul_div_cancel_right₀ _ htw, mathRound_intCast]
  refine ⟨hnts, ?_, ?_⟩
  · show mathFloor (((calculateConversion d).newTotalSeconds : ℚ) / 60) = _
    unfold mathFloor
    rw [show ((60 : ℚ)) = ((60 : ℤ) : ℚ) by norm_num,
      floor_intCast_div_intCast _ 60 (by norm_num), hnts]
    omega
  · show Int.tmod (calculateConversion d).newTotalSeconds 60 = _
    rw [Int.tmod_eq_emod (by rw [hnts]; omega) (by norm_num), hnts]
    omega

/-- Witness for C4: 2m 30s at 700W converted to 700W. -/
theorem convert_same_wattage_identity_witness :
    (calculateConversion ⟨700, 2, 30, 700⟩).newTotalSeconds = 2 * 60 + 30 ∧
    (calculateConversion ⟨700, 2, 30, 700⟩).newMinutes = 2 ∧
    (calculateConversion ⟨700, 2, 30, 700⟩).newSeconds = 30 :=
  convert_same_wattage_identity ⟨700, 2, 30, 700⟩ (by decide) rfl

/-- C7 (counterexample): the `ratio` field produced by the source is
not rounded to two decimal places: for 1000W over 700W it is exactly
10/7 ≈ 1.4286, not 1.43. -/
theorem ratio_not_rounded :
    ValidRequest ⟨1000, 2, 0, 700⟩ ∧
    (calculateConversion ⟨1000, 2, 0, 700⟩).ratio = 10 / 7 ∧
    (10 / 7 : ℚ) ≠ 143 / 100 := by
  refine ⟨by decide, ?_, by norm_num⟩
  norm_num [calculateConversion]

/-- C7 (amended): the `ratio` field equals the *unrounded* quotient
originalWattage / targetWattage (no two-decimal rounding happens in
`src/script.js`), and the division producing `newTotalSeconds` also
uses the unrounded wattages. -/
theorem ratio_unrounded (d : FormData) (h : ValidRequest d) :
    (calculateConversion d).ratio =
      (d.originalWattage : ℚ) / (d.targetWattage : ℚ) ∧
    (calculateConversion d).newTotalSeconds =
      roundHalfAwayFromZero
        (((d.originalMinutes * 60 + d.originalSeconds : ℤ) : ℚ) *
          (d.originalWattage : ℚ) / (d.targetWattage : ℚ)) :=
  ⟨rfl, newTotalSeconds_eq_roundAway d h⟩

/-- Witness for the amended C7 at the documented 1000W→700W request. -/
theorem ratio_unrounded_witness :
    (calculateConversion ⟨1000, 2, 0, 700⟩).ratio =
      ((1000 : ℤ) : ℚ) / ((700 : ℤ) : ℚ) ∧
    (calculateConversion ⟨1000, 2, 0, 700⟩).newTotalSeconds =
      roundHalfAwayFromZero
        (((2 * 60 + 0 : ℤ) : ℚ) * ((1000 : ℤ) : ℚ) / ((700 : ℤ) : ℚ)) :=
  ratio_unrounded ⟨1000, 2, 0, 700⟩ (by decide)

/-- C10: the request 100W recipe → 2000W target with duration 0m 1s
passes `validateForm` (and lies in the spec's valid domain), yet its
converted time rounds down to zero: `newTotalSeconds = 0`, minutes and
seconds both zero, rendered as "0s". -/
theorem conversion_can_round_to_zero :
    validateForm ⟨100, 0, 1, 2000⟩ = true ∧
    ValidRequest ⟨100, 0, 1, 2000⟩ ∧
    (calculateConversion ⟨100, 0, 1, 2000⟩).newTotalSeconds = 0 ∧
    (calculateConversion ⟨100, 0, 1, 2000⟩).newMinutes = 0 ∧
    (calculateConversion ⟨100, 0, 1, 2000⟩).newSeconds = 0 ∧
    convertedTimeString (calculateConversion ⟨100, 0, 1, 2000⟩) = "0s" := by
  have hn : (calculateConversion ⟨100, 0, 1, 2000⟩).newTotalSeconds = 0 := by
    norm_num [calculateConversion, mathRound]
  have hm : (calculateConversion ⟨100, 0, 1, 2000⟩).newMinutes = 0 := by
    show mathFloor
      (((calculateConversion ⟨100, 0, 1, 2000⟩).newTotalSeconds : ℚ) / 60) = 0
    rw [hn]
    norm_num [mathFloor]
  have hs : (calculateConversion ⟨100, 0, 1, 2000⟩).newSeconds = 0 := by
    show Int.tmod (calculateConversion ⟨100, 0, 1, 2000⟩).newTotalSeconds 60 = 0
    rw [hn]
    decide
  refine ⟨by decide, by decide, hn, hm, hs, ?_⟩
  simp only [convertedTimeString, hm, hs]
  decide

/-- C5: the recommendation is keyed to the unrounded ratio
originalWattage / targetWattage: above 1.5 it is "70-80%" with the
more-powerful reason, below 0.7 it is "100%" with the less-powerful
reason, and otherwise "100%" with the similar-power reason. -/
theorem powerLevel_thresholds (ow tw : ℤ) (_how : 0 < ow) (_htw : 0 < tw) :
    ((3 / 2 : ℚ) < (ow : ℚ) / (tw : ℚ) →
      getPowerLevelRecommendation ow tw = ⟨"70-80%", morePowerfulReason⟩) ∧
    ((ow : ℚ) / (tw : ℚ) < 7 / 10 →
      getPowerLevelRecommendation ow tw = ⟨"100%", lessPowerfulReason⟩) ∧
    ((7 / 10 : ℚ) ≤ (ow : ℚ) / (tw : ℚ) ∧ (ow : ℚ) / (tw : ℚ) ≤ 3 / 2 →
      getPowerLevelRecommendation ow tw = ⟨"100%", similarReason⟩) := by
  simp only [getPowerLevelRecommendation]
  refine ⟨?_, ?_, ?_⟩
  · intro h
    rw [if_pos h]
  · intro h
    rw [if_neg (by linarith), if_pos h]
  · rintro ⟨h1, h2⟩
    rw [if_neg (not_lt.mpr h2), if_neg (not_lt.mpr h1)]

/-- Witness for C5: a 1500W recipe on a 700W microwave (ratio 15/7). -/
theorem powerLevel_thresholds_witness :
    getPowerLevelRecommendation 1500 700 = ⟨"70-80%", morePowerfulReason⟩ :=
  (powerLevel_thresholds 1500 700 (by decide) (by decide)).1 (by norm_num)

/-! ### Claims about validation -/

lemma errorKind_required :
    errorKind "This field is required" = .missingField := by decide

lemma errorKind_wattageLow :
    errorKind "Wattage must be at least 100 watts" = .outOfRange := by decide

lemma errorKind_wattageHigh :
    errorKind "Wattage must be 2000 watts or less" = .outOfRange := by decide

lemma errorKind_seconds :
    errorKind "Seconds must be between 0-59" = .invalidTime := by decide

lemma errorKind_minutes :
    errorKind "Minutes should be reasonable (≤60)" = .invalidTime := by decide

lemma inputVerdict_wattage_eq (k : InputKind) (hk : k.isWattage = true) (v : ℤ) :
    inputVerdict k v =
      if v ≤ 0 then some "This field is required"
      else if v < 100 then some "Wattage must be at least 100 watts"
      else if v > 2000 then some "Wattage must be 2000 watts or less"
      else none := by
  cases k <;> simp_all [inputVerdict, InputKind.isRequired, InputKind.isWattage]

lemma inputVerdict_originalMinutes_eq (v : ℤ) :
    inputVerdict .originalMinutes v =
      if v > 60 then some "Minutes should be reasonable (≤60)" else none := by
  simp [inputVerdict, InputKind.isRequired, InputKind.isWattage]

lemma inputVerdict_originalSeconds_eq (v : ℤ) :
    inputVerdict .originalSeconds v =
      if v > 59 then some "Seconds must be between 0-59" else none := by
  simp [inputVerdict, InputKind.isRequired, InputKind.isWattage]

lemma inputVerdict_wattage_none_iff (k : InputKind) (hk : k.isWattage = true)
    (v : ℤ) : (inputVerdict k v).isNone = true ↔ (100 ≤ v ∧ v ≤ 2000) := by
  rw [inputVerdict_wattage_eq k hk]
  split_ifs <;> simp <;> omega

lemma inputVerdict_minutes_none_iff (v : ℤ) :
    (inputVerdict .originalMinutes v).isNone = true ↔ v ≤ 60 := by
  rw [inputVerdict_originalMinutes_eq]
  split_ifs <;> simp <;> omega

lemma inputVerdict_seconds_none_iff (v : ℤ) :
    (inputVerdict .originalSeconds v).isNone = true ↔ v ≤ 59 := by
  rw [inputVerdict_originalSeconds_eq]
  split_ifs <;> simp <;> omega

/-- C2 (counterexample): a request whose `originalSeconds` is −1 — i.e.
outside `[0,59]`, where the claim demands an `InvalidTime` failure —
passes `validateForm`: the source has no lower-bound check on the
(non-required) time fields. -/
theorem validateForm_accepts_negative_seconds :
    validateForm ⟨1000, 0, -1, 1000⟩ = true ∧ ((-1 : ℤ) < 0) :=
  ⟨by decide, by decide⟩

/-- C2 (amended): `validateForm` accepts exactly the requests with both
wattages in `[100,2000]`, minutes ≤ 60, seconds ≤ 59 and not both time
fields zero (negative time fields are NOT rejected); on a wattage
field the failure is classified `MissingField` when the value is ≤ 0
(the `required` check fires first) and `OutOfRange` exactly when the
value is in `(0,100) ∪ (2000,∞)`; the time fields fail — always with
`InvalidTime` — exactly when seconds > 59, resp. minutes > 60. -/
theorem validateForm_characterization :
    (∀ d : FormData, (validateForm d = true ↔
      (100 ≤ d.originalWattage ∧ d.originalWattage ≤ 2000 ∧
       100 ≤ d.targetWattage ∧ d.targetWattage ≤ 2000 ∧
       d.originalMinutes ≤ 60 ∧ d.originalSeconds ≤ 59 ∧
       ¬(d.originalMinutes = 0 ∧ d.originalSeconds = 0)))) ∧
    (∀ k : InputKind, k.isWattage = true → ∀ v : ℤ,
      (((inputVerdict k v).map errorKind = some .missingField ↔ v ≤ 0) ∧
       ((inputVerdict k v).map errorKind = some .outOfRange ↔
         ((0 < v ∧ v < 100) ∨ 2000 < v)))) ∧
    (∀ v : ℤ,
      ((inputVerdict .originalSeconds v).map errorKind = some .invalidTime ↔
        59 < v)) ∧
    (∀ v : ℤ,
      ((inputVerdict .originalMinutes v).map errorKind = some .invalidTime ↔
        60 < v)) := by
  have hwatt : ∀ k : InputKind, k.isWattage = true → ∀ v : ℤ,
      (((inputVerdict k v).map errorKind = some .missingField ↔ v ≤ 0) ∧
       ((inputVerdict k v).map errorKind = some .outOfRange ↔
         ((0 < v ∧ v < 100) ∨ 2000 < v))) := by
    intro k hk v
    rw [inputVerdict_wattage_eq k hk v]
    split_ifs with h1 h2 h3 <;>
      simp only [Option.map_some', Option.map_none', errorKind_required,
        errorKind_wattageLow, errorKind_wattageHigh, Option.some.injEq,
        reduceCtorEq] <;>
      simp <;> omega
  refine ⟨?_, hwatt, ?_, ?_⟩
  · intro d
    simp only [validateForm, Bool.and_eq_true,
      inputVerdict_wattage_none_iff .originalWattage rfl,
      inputVerdict_wattage_none_iff .targetWattage rfl,
      inputVerdict_minutes_none_iff, inputVerdict_seconds_none_iff,
      Bool.not_eq_eq_eq_not, Bool.not_true, Bool.and_eq_false_imp,
      beq_iff_eq]
    constructor
    · rintro ⟨⟨⟨⟨hw1, hm⟩, hsec⟩, hw2⟩, hz⟩
      exact ⟨hw1.1, hw1.2, hw2.1, hw2.2, hm, hsec, fun h => by
        have := hz h.1
        simp [h.2] at this⟩
    · rintro ⟨a1, a2, a3, a4, a5, a6, a7⟩
      refine ⟨⟨⟨⟨⟨a1, a2⟩, a5⟩, a6⟩, a3, a4⟩, fun hm0 => ?_⟩
      by_contra hs
      simp only [Bool.not_eq_false, beq_iff_eq] at hs
      exact a7 ⟨hm0, hs⟩
  · intro v
    rw [inputVerdict_originalSeconds_eq]
    split_ifs with h <;>
      simp only [Option.map_some', Option.map_none', errorKind_seconds,
        Option.some.injEq, reduceCtorEq] <;>
      simp <;> omega
  · intro v
    rw [inputVerdict_originalMinutes_eq]
    split_ifs with h <;>
      simp only [Option.map_some', Option.map_none', errorKind_minutes,
        Option.some.injEq, reduceCtorEq] <;>
      simp <;> omega

/-- Witness for the amended C2: the boundary requests of §8 of the
spec, checked through the characterization. -/
theorem validateForm_characterization_witness :
    (validateForm ⟨100, 0, 1, 2000⟩ = true) ∧
    ((inputVerdict .originalWattage 99).map errorKind = some .outOfRange) ∧
    ((inputVerdict .targetWattage 2001).map errorKind = some .outOfRange) :=
  ⟨(validateForm_characterization.1 ⟨100, 0, 1, 2000⟩).mpr (by decide),
   (validateForm_characterization.2.1 .originalWattage rfl 99).2.mpr (by decide),
   (validateForm_characterization.2.1 .targetWattage rfl 2001).2.mpr (by decide)⟩

/-- C9 (counterexample): `validateInput` is not free of side effects:
even on success it mutates the field-group presentation state (it adds
the `success` CSS class), so it does not leave all other state
unchanged. -/
theorem validateInput_mutates_presentation_state :
    (validateInputE .originalWattage ⟨1000, ⟨false, false, none⟩⟩).1 = true ∧
    (validateInputE .originalWattage ⟨1000, ⟨false, false, none⟩⟩).2 ≠
      (⟨1000, ⟨false, false, none⟩⟩ : ElementState) := by
  decide

/-- C9 (amended): `validateInput` never writes the input's value (the
request data is returned unchanged), and its verdict — and even its
entire result — is a pure function of the field kind and the value,
independent of the prior presentation state; but it does rewrite the
field group's error/success decoration, even on success. -/
theorem validateInput_value_frame (k : InputKind) (e : ElementState) :
    (validateInputE k e).2.value = e.value ∧
    (validateInputE k e).1 = (inputVerdict k e.value).isNone ∧
    (∀ g : FieldGroupState, validateInputE k ⟨e.value, g⟩ = validateInputE k e) := by
  unfold validateInputE
  cases hv : inputVerdict k e.value <;>
    simp [hv, clearErrorsS, showErrorS, showSuccessS]

/-! ### String-formatting support lemmas -/

lemma natDigitsAux_all_digits (fuel : ℕ) :
    ∀ (n : ℕ), ∀ c ∈ natDigitsAux fuel n, ∃ k, k < 10 ∧ c = Nat.digitChar k := by
  induction fuel with
  | zero => intro n c hc; simp [natDigitsAux] at hc
  | succ fuel ih =>
    intro n c hc
    unfold natDigitsAux at hc
    by_cases h : n < 10
    · rw [if_pos h] at hc
      simp only [List.mem_singleton] at hc
      exact ⟨n, h, hc⟩
    · rw [if_neg h] at hc
      rcases List.mem_append.mp hc with h1 | h2
      · exact ih (n / 10) c h1
      · simp only [List.mem_singleton] at h2
        exact ⟨n % 10, Nat.mod_lt n (by omega), h2⟩

lemma digitChar_not_whitespace : ∀ k < 10, (Nat.digitChar k).isWhitespace = false := by
  decide

lemma natDigitsAux_ne_nil (fuel n : ℕ) : natDigitsAux (fuel + 1) n ≠ [] := by
  unfold natDigitsAux
  split_ifs <;> simp

lemma intDigits_nonneg_eq (i : ℤ) (h : 0 ≤ i) :
    intDigits i = natDigitsAux (i.toNat + 1) i.toNat := by
  rw [intDigits, if_neg (by omega)]

lemma intDigits_not_whitespace (i : ℤ) (h : 0 ≤ i) :
    ∀ c ∈ intDigits i, c.isWhitespace = false := by
  rw [intDigits_nonneg_eq i h]
  intro c hc
  obtain ⟨k, hk, rfl⟩ := natDigitsAux_all_digits _ _ c hc
  exact digitChar_not_whitespace k hk

lemma intDigits_ne_nil (i : ℤ) (h : 0 ≤ i) : intDigits i ≠ [] := by
  rw [intDigits_nonneg_eq i h]
  exact natDigitsAux_ne_nil _ _

lemma dropWhile_ws_eq_self (l : List Char)
    (h : ∀ c ∈ l, c.isWhitespace = false) :
    l.dropWhile Char.isWhitespace = l := by
  cases l with
  | nil => simp
  | cons a t =>
    rw [List.dropWhile_cons_of_neg]
    simp [h a (List.mem_cons_self a t)]

lemma jsTrim_of_head_getLast (l : List Char)
    (h1 : ∀ c, l.head? = some c → c.isWhitespace = false)
    (h2 : ∀ c, l.getLast? = some c → c.isWhitespace = false) :
    jsTrim l = l := by
  unfold jsTrim
  have hd : l.dropWhile Char.isWhitespace = l := by
    cases l with
    | nil => simp
    | cons a t =>
      rw [List.dropWhile_cons_of_neg]
      simp [h1 a rfl]
  rw [hd]
  have hrev : l.reverse.dropWhile Char.isWhitespace = l.reverse := by
    cases hr : l.reverse with
    | nil => simp
    | cons b t =>
      have hb : l.getLast? = some b := by
        rw [List.getLast?_eq_head?_reverse, hr]
        rfl
      rw [List.dropWhile_cons_of_neg]
      simp [h2 b hb]
  rw [hrev, List.reverse_reverse]

lemma jsTrim_of_no_ws (l : List Char)
    (h : ∀ c ∈ l, c.isWhitespace = false) : jsTrim l = l := by
  unfold jsTrim
  rw [dropWhile_ws_eq_self l h,
    dropWhile_ws_eq_self _ (fun c hc => h c (List.mem_reverse.mp hc)),
    List.reverse_reverse]

lemma jsTrim_append_space (l : List Char) (hne : l ≠ [])
    (h : ∀ c ∈ l, c.isWhitespace = false) :
    jsTrim (l ++ [' ']) = l := by
  unfold jsTrim
  obtain ⟨a, t, rfl⟩ := List.exists_cons_of_ne_nil hne
  have hd : ((a :: t) ++ [' ']).dropWhile Char.isWhitespace =
      (a :: t) ++ [' '] := by
    rw [List.cons_append, List.dropWhile_cons_of_neg]
    simp [h a (List.mem_cons_self a t)]
  have hr : ((a :: t) ++ [' ']).reverse = ' ' :: (a :: t).reverse := by
    simp
  rw [hd, hr, List.dropWhile_cons_of_pos (by decide),
    dropWhile_ws_eq_self _ (fun c hc => h c (List.mem_reverse.mp hc)),
    List.reverse_reverse]

lemma newSeconds_nonneg (d : FormData) (h : ValidRequest d) :
    0 ≤ (calculateConversion d).newSeconds :=
  Int.tmod_nonneg 60 (newTotalSeconds_nonneg d h)

lemma convertedTimeString_of_pos (r : ConversionResult)
    (hm : 0 < r.newMinutes) :
    convertedTimeString r =
      ⟨intDigits r.newMinutes ++ ['m', ' '] ++
        intDigits r.newSeconds ++ ['s']⟩ := by
  unfold convertedTimeString
  rw [if_pos hm]
  simp [List.append_assoc]

lemma convertedTimeString_of_zero (r : ConversionResult)
    (hm : r.newMinutes = 0) :
    convertedTimeString r = ⟨intDigits r.newSeconds ++ ['s']⟩ := by
  unfold convertedTimeString
  rw [hm, if_neg (by omega)]
  simp

lemma formatTime_pos_pos (m s : ℤ) (hm : 0 < m) (hs : 0 < s) :
    formatTime m s =
      ⟨intDigits m ++ ['m', ' '] ++ intDigits s ++ ['s']⟩ := by
  unfold formatTime
  rw [if_pos hm, if_pos (Or.inl hs)]
  have h1 := intDigits_not_whitespace m hm.le
  have h2 := intDigits_not_whitespace s hs.le
  obtain ⟨a, t, ha⟩ := List.exists_cons_of_ne_nil (intDigits_ne_nil m hm.le)
  rw [jsTrim_of_head_getLast]
  · simp [List.append_assoc]
  · intro c hc
    rw [ha] at hc
    simp only [List.cons_append, List.head?_cons, Option.some.injEq] at hc
    exact hc ▸ h1 a (by rw [ha]; exact List.mem_cons_self a t)
  · intro c hc
    rw [← List.append_assoc, List.getLast?_concat, Option.some.injEq] at hc
    subst hc
    decide

lemma formatTime_pos_zero (m : ℤ) (hm : 0 < m) :
    formatTime m 0 = ⟨intDigits m ++ ['m']⟩ := by
  unfold formatTime
  rw [if_pos hm, if_neg (by omega)]
  have heq : intDigits m ++ ['m', ' '] ++ ([] : List Char) =
      (intDigits m ++ ['m']) ++ [' '] := by simp
  rw [heq, jsTrim_append_space _ (by simp) ?_]
  intro c hc
  rcases List.mem_append.mp hc with h1 | h2
  · exact intDigits_not_whitespace m hm.le c h1
  · simp only [List.mem_singleton] at h2
    subst h2
    decide

lemma formatTime_zero_minutes (s : ℤ) (hs : 0 ≤ s) :
    formatTime 0 s = ⟨intDigits s ++ ['s']⟩ := by
  unfold formatTime
  rw [if_neg (by omega), if_pos (Or.inr rfl)]
  rw [List.nil_append, jsTrim_of_no_ws]
  intro c hc
  rcases List.mem_append.mp hc with h1 | h2
  · exact intDigits_not_whitespace s hs c h1
  · simp only [List.mem_singleton] at h2
    subst h2
    decide

/-! ### Claims about formatting and the explanation -/

/-- C6 (counterexample): for the valid request 1m 0s the *original*
duration is rendered by `formatTime` as "1m", not the "1m 0s" the
claim requires when minutes > 0: `formatTime` omits the seconds part
when it is zero and the minutes part is present. -/
theorem formatTime_omits_zero_seconds :
    ValidRequest ⟨1000, 1, 0, 1000⟩ ∧
    formatTime (⟨1000, 1, 0, 1000⟩ : FormData).originalMinutes
      (⟨1000, 1, 0, 1000⟩ : FormData).originalSeconds = "1m" ∧
    ("1m" : String) ≠ "1m 0s" :=
  ⟨by decide, by decide, by decide⟩

/-- C6 (amended): the converted time (built inline in `displayResult`)
renders as "<m>m <s>s" when minutes > 0 and "<s>s" when minutes = 0 —
in particular totalSeconds 30 gives "30s" and totalSeconds 60 gives
"1m 0s" — while the original time (built by `formatTime`) additionally
drops the "<s>s" part when seconds = 0 and minutes > 0, giving "<m>m". -/
theorem formatting_rules (d : FormData) (h : ValidRequest d) :
    (0 < (calculateConversion d).newMinutes →
      convertedTimeString (calculateConversion d) =
        ⟨intDigits (calculateConversion d).newMinutes ++ ['m', ' '] ++
          intDigits (calculateConversion d).newSeconds ++ ['s']⟩) ∧
    ((calculateConversion d).newMinutes = 0 →
      convertedTimeString (calculateConversion d) =
        ⟨intDigits (calculateConversion d).newSeconds ++ ['s']⟩) ∧
    (0 < d.originalMinutes → 0 < d.originalSeconds →
      formatTime d.originalMinutes d.originalSeconds =
        ⟨intDigits d.originalMinutes ++ ['m', ' '] ++
          intDigits d.originalSeconds ++ ['s']⟩) ∧
    (0 < d.originalMinutes → d.originalSeconds = 0 →
      formatTime d.originalMinutes d.originalSeconds =
        ⟨intDigits d.originalMinutes ++ ['m']⟩) ∧
    (d.originalMinutes = 0 →
      formatTime d.originalMinutes d.originalSeconds =
        ⟨intDigits d.originalSeconds ++ ['s']⟩) ∧
    convertedTimeString (calculateConversion ⟨1000, 0, 30, 1000⟩) = "30s" ∧
    convertedTimeString (calculateConversion ⟨1000, 1, 0, 1000⟩) = "1m 0s" := by
  refine ⟨fun hm => convertedTimeString_of_pos _ hm,
    fun hm => convertedTimeString_of_zero _ hm,
    fun h1 h2 => formatTime_pos_pos _ _ h1 h2,
    fun h1 h2 => by rw [h2]; exact formatTime_pos_zero _ h1,
    fun h1 => by rw [h1]; exact formatTime_zero_minutes _ h.2.2.2.2.2.2.1,
    ?_, ?_⟩
  · have hn : (calculateConversion ⟨1000, 0, 30, 1000⟩).newTotalSeconds = 30 := by
      norm_num [calculateConversion, mathRound]
    have hm : (calculateConversion ⟨1000, 0, 30, 1000⟩).newMinutes = 0 := by
      show mathFloor
        (((calculateConversion ⟨1000, 0, 30, 1000⟩).newTotalSeconds : ℚ) / 60) = 0
      rw [hn]
      norm_num [mathFloor]
    have hs : (calculateConversion ⟨1000, 0, 30, 1000⟩).newSeconds = 30 := by
      show Int.tmod (calculateConversion ⟨1000, 0, 30, 1000⟩).newTotalSeconds 60 = 30
      rw [hn]
      decide
    simp only [convertedTimeString, hm, hs]
    decide
  · have hn : (calculateConversion ⟨1000, 1, 0, 1000⟩).newTotalSeconds = 60 := by
      norm_num [calculateConversion, mathRound]
    have hm : (calculateConversion ⟨1000, 1, 0, 1000⟩).newMinutes = 1 := by
      show mathFloor
        (((calculateConversion ⟨1000, 1, 0, 1000⟩).newTotalSeconds : ℚ) / 60) = 1
      rw [hn]
      norm_num [mathFloor]
    have hs : (calculateConversion ⟨1000, 1, 0, 1000⟩).newSeconds = 0 := by
      show Int.tmod (calculateConversion ⟨1000, 1, 0, 1000⟩).newTotalSeconds 60 = 0
      rw [hn]
      decide
    simp only [convertedTimeString, hm, hs]
    decide

/-- Witness for the amended C6: the 1m 0s original time renders "1m". -/
theorem formatting_rules_witness :
    formatTime (1 : ℤ) 0 = ⟨intDigits 1 ++ ['m']⟩ :=
  (formatting_rules ⟨1000, 1, 0, 1000⟩ (by decide)).2.2.2.1 (by decide) (by decide)

/-- C8 (counterexample): the explanation built by `displayResult` for
the 1000W→700W, 2m request is exactly "Cook for 2m 51s instead of 2m";
it does not contain the original wattage (1000) or the target wattage
(700) that the claim requires. -/
theorem explanation_lacks_wattages :
    ValidRequest ⟨1000, 2, 0, 700⟩ ∧
    explanationString (calculateConversion ⟨1000, 2, 0, 700⟩) ⟨1000, 2, 0, 700⟩ =
      "Cook for 2m 51s instead of 2m" ∧
    ¬(("1000" : String).data <:+: ("Cook for 2m 51s instead of 2m" : String).data) ∧
    ¬(("700" : String).data <:+: ("Cook for 2m 51s instead of 2m" : String).data) := by
  refine ⟨by decide, ?_, by decide, by decide⟩
  have hn : (calculateConversion ⟨1000, 2, 0, 700⟩).newTotalSeconds = 171 := by
    norm_num [calculateConversion, mathRound]
  have hm : (calculateConversion ⟨1000, 2, 0, 700⟩).newMinutes = 2 := by
    show mathFloor
      (((calculateConversion ⟨1000, 2, 0, 700⟩).newTotalSeconds : ℚ) / 60) = 2
    rw [hn]
    norm_num [mathFloor]
  have hs : (calculateConversion ⟨1000, 2, 0, 700⟩).newSeconds = 51 := by
    show Int.tmod (calculateConversion ⟨1000, 2, 0, 700⟩).newTotalSeconds 60 = 51
    rw [hn]
    decide
  simp only [explanationString, convertedTimeString, hm, hs]
  decide

/-- C8 (amended): the explanation is the fixed template
"Cook for <converted> instead of <original>": it embeds both formatted
durations (each occurs as a substring), but neither wattage appears
anywhere in the template. -/
theorem explanation_template (r : ConversionResult) (d : FormData) :
    explanationString r d =
      "Cook for " ++ convertedTimeString r ++ " instead of " ++
        formatTime d.originalMinutes d.originalSeconds ∧
    (convertedTimeString r).data <:+: (explanationString r d).data ∧
    (formatTime d.originalMinutes d.originalSeconds).data <:+:
      (explanationString r d).data := by
  refine ⟨rfl, ?_, ?_⟩
  · refine ⟨("Cook for " : String).data,
      (" instead of " : String).data ++
        (formatTime d.originalMinutes d.originalSeconds).data, ?_⟩
    simp [explanationString, List.append_assoc]
  · refine ⟨("Cook for " : String).data ++ (convertedTimeString r).data ++
      (" instead of " : String).data, [], ?_⟩
    simp [explanationString, List.append_assoc]
